import Mathlib

/-!
# Verification of the Reployer++ server monitor core

A shallow embedding, in Lean, of the core logic of the Reployer++
repository: the poll-result handler and connectivity state machine of
`MainWindow` (`src/reployer.py` and `src/ui/mainWindow.py`, which contain
textually identical copies of the poll logic), the player-table renderer,
the FastDL asset downloader (`src/downloadWorker.py`), and the poll query
wrapper (`src/polls.py`, `MainWindow._poll_server_once`).

Machine integers are modelled as `Nat`/`Int` (Python integers are
unbounded, so no wrap-around modelling is needed), wall-clock times from
`time.time()` as rationals, strings as Lean `String` (or `List Char` for
the URL builder, where suffix surgery is the point), and fallible
operations as explicit `Except`/result inputs.
-/

namespace Reployer

/-- A decoded roster entry, as the poll layer sees it after
`a2s_players` has been decoded: `{name, score, duration}`
(cf. the dict built in `MainWindow._poll_server_once`). -/
structure RawPlayer where
  name : String
  score : Int
  duration : Int
deriving DecidableEq

/-- The `PollResult` dataclass from `src/polls.py`. -/
structure PollResult where
  ok : Bool
  server_name : String
  map_name : String
  player_count : Nat
  max_players : Int
  players : List RawPlayer
  error : String
deriving DecidableEq

/-- The fields of an `a2s.info` response read by `_poll_server_once`. -/
structure A2SInfo where
  server_name : String
  map_name : String
  max_players : Int
deriving DecidableEq

/-- Model of `MainWindow._poll_server_once` (src/reployer.py:1488, src/ui/mainWindow.py:461).
The `a2s_info`/`a2s_players` round trip is modelled as an `Except` input:
`.error e` is the caught exception (with text `e`), `.ok` carries the two
decoded responses.  The body normalises each field exactly as the source
does (`strip() or <default>` becomes a `trim`-then-empty test). -/
def poll_server_once (host : String) (port : Nat)
    (backend : Except String (A2SInfo × List RawPlayer)) : PollResult :=
  match backend with
  | .error e => ⟨false, host ++ ":" ++ toString port, "Unknown", 0, 0, [], e⟩
  | .ok (info, players) =>
    let plist := players.map (fun p =>
      { name := if p.name.trim = "" then "Unnamed" else p.name.trim,
        score := p.score, duration := p.duration : RawPlayer })
    let server_name :=
      if info.server_name.trim = "" then host ++ ":" ++ toString port
      else info.server_name.trim
    let map_name := if info.map_name.trim = "" then "Unknown" else info.map_name.trim
    ⟨true, server_name, map_name, plist.length, info.max_players, plist, ""⟩

/-- The hard-offline test of the monitor variant in `src/reployer.py`
(line 1524): `offline_now = self.query_fail_count >= 5`. -/
def reployer_offline_now (query_fail_count : Nat) : Bool :=
  decide (query_fail_count ≥ 5)

/-- The hard-offline test of the monitor variant in `src/ui/mainWindow.py`
(line 497): `offline_now = self.query_fail_count >= 5`. -/
def mainwindow_offline_now (query_fail_count : Nat) : Bool :=
  decide (query_fail_count ≥ 5)

/-- Modelled from the spec: the map-cycle schedule (spec §4.4) is not
present under `src/`; per the spec it is a fixed 24-entry hour→map table
and `previousMap` looks up hour−1 modulo 24.  `Fin 24` subtraction is
subtraction modulo 24. -/
def previousMap (table : Fin 24 → String) (hour : Fin 24) : String :=
  table (hour - 1)

/-- Modelled from the spec: `nextMap` (spec §4.4) looks up hour+1 modulo 24
in the 24-entry schedule table; the table itself is not present under
`src/`.  `Fin 24` addition is addition modulo 24. -/
def nextMap (table : Fin 24 → String) (hour : Fin 24) : String :=
  table (hour + 1)

/-- C10: the single-poll query function is total at its public boundary:
for every server address and every backend outcome it returns a
`PollResult` (it is a total function, so no exception escapes); on a
backend failure the result is `ok = false` with `player_count = 0`, an
empty player list and the exception text in `error`; on success the
result is `ok = true` with `player_count` equal to the length of the
returned player list. -/
theorem poll_server_once_total (host : String) (port : Nat) :
    (∀ e : String,
      poll_server_once host port (.error e) =
        ⟨false, host ++ ":" ++ toString port, "Unknown", 0, 0, [], e⟩) ∧
    (∀ (info : A2SInfo) (ps : List RawPlayer),
      (poll_server_once host port (.ok (info, ps))).ok = true ∧
      (poll_server_once host port (.ok (info, ps))).player_count =
        (poll_server_once host port (.ok (info, ps))).players.length ∧
      (poll_server_once host port (.ok (info, ps))).error = "") := by
  refine ⟨fun e => rfl, fun info ps => ⟨rfl, ?_, rfl⟩⟩
  simp [poll_server_once]

/-- C6 counterexample: at exactly 5 consecutive failed polls, *both*
monitor variants already declare the server offline, so neither variant
requires 15 consecutive failures — the claimed disagreement between the
two variants does not exist in the code. -/
theorem offline_threshold_cx :
    reployer_offline_now 5 = true ∧ mainwindow_offline_now 5 = true := by
  decide

/-- C6 amended: the repository's two monitor variants *agree* on the
hard-offline threshold — each declares the server offline exactly when
the consecutive-failure count is ≥ 5. -/
theorem offline_threshold_variants_agree :
    ∀ n : Nat, reployer_offline_now n = mainwindow_offline_now n ∧
      (reployer_offline_now n = true ↔ 5 ≤ n) := by
  intro n
  exact ⟨rfl, by simp [reployer_offline_now]⟩

/-- C9: in the (spec-modelled) map-cycle schedule lookup, `previousMap`
queried at hour 0 returns the hour-23 entry and `nextMap` queried at
hour 0 returns the hour-1 entry — the lookups wrap modulo 24 over the
24-entry table. -/
theorem schedule_lookup_wraps (table : Fin 24 → String) :
    previousMap table 0 = table 23 ∧ nextMap table 0 = table 1 :=
  ⟨congrArg table (by decide), congrArg table (by decide)⟩

/-! ## Asset downloader: URL construction (src/downloadWorker.py, `_build_url`)

Strings are modelled as `List Char` here, since the function is suffix
surgery on strings.  `str.replace` is modelled by `replaceAll`
(left-to-right, non-overlapping, as in Python for a non-empty pattern —
both placeholder patterns used by the source are non-empty). -/

/-- Python `str.replace(pat, rep)` for a non-empty `pat`: scan left to
right, replacing non-overlapping occurrences.  (For `pat = []` this is
the identity; Python instead interleaves `rep`, but the source only ever
replaces the non-empty literals `{base}` and `{map}`.) -/
def replaceAll (pat rep : List Char) (s : List Char) : List Char :=
  match s with
  | [] => []
  | c :: rest =>
    if h : pat ≠ [] ∧ pat.isPrefixOf (c :: rest) then
      rep ++ replaceAll pat rep ((c :: rest).drop pat.length)
    else
      c :: replaceAll pat rep rest
termination_by s.length
decreasing_by
  · simp only [List.length_drop, List.length_cons]
    have hp : 0 < pat.length := List.length_pos.mpr h.1
    omega
  · simp only [List.length_cons]
    omega

/-- The template resolution in `DownloadWorker._build_url` (line 29):
`self.template.replace("{base}", self.base).replace("{map}", self.map_name)`. -/
def resolve_template (template base map_name : List Char) : List Char :=
  replaceAll "{map}".data map_name (replaceAll "{base}".data base template)

/-- The two extensions `_build_url` is called with (`run`, lines 90–91). -/
inductive TargetExt
  | bsp
  | bz2
deriving DecidableEq

/-- The literal suffix of each target extension. -/
def ext_suffix : TargetExt → List Char
  | .bsp => ".bsp".data
  | .bz2 => ".bsp.bz2".data

/-- The "other known extension" of each target extension. -/
def TargetExt.other : TargetExt → TargetExt
  | .bsp => .bz2
  | .bz2 => .bsp

/-- Model of `DownloadWorker._build_url` (src/downloadWorker.py:28–48), one
branch per target extension, with the source's check order and its
(redundant) final conditional in the `.bsp` branch kept. -/
def build_url (template base map_name : List Char) : TargetExt → List Char
  | .bsp =>
    let url := resolve_template template base map_name
    if ".bsp".data.isSuffixOf url then url
    else if ".bsp.bz2".data.isSuffixOf url then url.take (url.length - 4)
    else if ['/'].isSuffixOf url then url ++ map_name ++ ".bsp".data
    else if !(".bsp".data.isSuffixOf url) then url ++ ".bsp".data else url
  | .bz2 =>
    let url := resolve_template template base map_name
    if ".bsp.bz2".data.isSuffixOf url then url
    else if ".bsp".data.isSuffixOf url then url ++ ".bz2".data
    else if ['/'].isSuffixOf url then url ++ map_name ++ ".bsp.bz2".data
    else url ++ ".bsp.bz2".data

/-- Dropping 4 trailing characters from a string that ends in `.bsp.bz2`
is the same as dropping the whole 8-character suffix and appending `.bsp`. -/
theorem take_sub_four_of_bz2_suffix (url : List Char)
    (h : ".bsp.bz2".data.isSuffixOf url) :
    url.take (url.length - 4) = url.take (url.length - 8) ++ ".bsp".data := by
  rw [List.isSuffixOf_iff_suffix] at h
  obtain ⟨p, rfl⟩ := h
  have h4 : (p ++ ".bsp.bz2".data).length - 4 = p.length + 4 := by
    simp [List.length_append]
  have h8 : (p ++ ".bsp.bz2".data).length - 8 = p.length + 0 := by
    simp [List.length_append]
  rw [h4, h8, List.take_append, List.take_append, List.append_assoc]
  congr 1

/-- Appending `.bz2` to a string that ends in `.bsp` is the same as
dropping the 4-character `.bsp` suffix and appending `.bsp.bz2`. -/
theorem append_bz2_of_bsp_suffix (url : List Char)
    (h : ".bsp".data.isSuffixOf url) :
    url ++ ".bz2".data = url.take (url.length - 4) ++ ".bsp.bz2".data := by
  rw [List.isSuffixOf_iff_suffix] at h
  obtain ⟨p, rfl⟩ := h
  have h4 : (p ++ ".bsp".data).length - 4 = p.length + 0 := by
    simp [List.length_append]
  rw [h4, List.take_append]
  simp

/-- C5: for every template, base URL and map name, and for each target
extension, `_build_url` returns exactly what the spec describes: the
resolved template unchanged if it already ends with the target extension;
the resolved template with the extension swapped (the other known
extension dropped, the target appended) if it ends with the other known
extension; the resolved template with `<map><target extension>` appended
if it ends with `/`; and otherwise the resolved template with the target
extension appended. -/
theorem build_url_spec (template base map_name : List Char) (ext : TargetExt) :
    build_url template base map_name ext =
      (let url := resolve_template template base map_name
       let target := ext_suffix ext
       let other := ext_suffix ext.other
       if target.isSuffixOf url then url
       else if other.isSuffixOf url then
         url.take (url.length - other.length) ++ target
       else if ['/'].isSuffixOf url then url ++ map_name ++ target
       else url ++ target) := by
  cases ext
  case bsp =>
    show (if ".bsp".data.isSuffixOf (resolve_template template base map_name) then _ else _) = _
    simp only [ext_suffix, TargetExt.other]
    generalize resolve_template template base map_name = url
    by_cases h1 : ".bsp".data.isSuffixOf url
    · simp [h1]
    · simp only [h1, if_false, Bool.false_eq_true]
      by_cases h2 : ".bsp.bz2".data.isSuffixOf url
      · simp only [h2, if_true]
        have : (".bsp.bz2".data).length = 8 := rfl
        rw [this, take_sub_four_of_bz2_suffix url h2]
      · simp only [h2, if_false, Bool.false_eq_true]
        by_cases h3 : ['/'].isSuffixOf url
        · simp [h3]
        · simp [h3, h1]
  case bz2 =>
    show (if ".bsp.bz2".data.isSuffixOf (resolve_template template base map_name) then _ else _) = _
    simp only [ext_suffix, TargetExt.other]
    generalize resolve_template template base map_name = url
    by_cases h1 : ".bsp.bz2".data.isSuffixOf url
    · simp [h1]
    · simp only [h1, if_false, Bool.false_eq_true]
      by_cases h2 : ".bsp".data.isSuffixOf url
      · simp only [h2, if_true]
        have : (".bsp".data).length = 4 := rfl
        rw [this, append_bz2_of_bsp_suffix url h2]
      · simp only [h2, if_false, Bool.false_eq_true]

/-! ## Player table rendering (`MainWindow._update_players_model`,
src/reployer.py:1606, src/ui/mainWindow.py:579) -/

/-- Helper for `fmt_hms_from_seconds` from `src/utils.py`: clamp at 0, then render
`"Xh MMm"` when hours > 0, `"Mm SSs"` when minutes > 0, else `"Ss"`
(`MM`/`SS` zero-padded to two digits as by Python's `{:02d}`). -/
def pad2 (n : Nat) : String :=
  if n < 10 then "0" ++ toString n else toString n

/-- See `pad2`; this is `src/utils.py`, `fmt_hms_from_seconds`. -/
def fmt_hms_from_seconds (seconds : Int) : String :=
  let sec := (max 0 seconds).toNat
  let h := sec / 3600
  let m := sec % 3600 / 60
  let s := sec % 60
  if h > 0 then toString h ++ "h " ++ pad2 m ++ "m"
  else if m > 0 then toString m ++ "m " ++ pad2 s ++ "s"
  else toString s ++ "s"

/-- Code-point comparison of char lists, as Python compares strings
(lexicographic over code points). -/
def charsLe (a b : List Char) : Bool :=
  match a, b with
  | [], _ => true
  | _ :: _, [] => false
  | x :: xs, y :: ys =>
    if x.toNat < y.toNat then true
    else if y.toNat < x.toNat then false
    else charsLe xs ys

/-- Python tuple `<=` on the sort key `(score, duration, name.lower())`
of `_update_players_model`: lexicographic over the three components. -/
def key_le (a b : Int × Int × List Char) : Bool :=
  if a.1 < b.1 then true
  else if b.1 < a.1 then false
  else if a.2.1 < b.2.1 then true
  else if b.2.1 < a.2.1 then false
  else charsLe a.2.2 b.2.2

/-- The sort key of `_update_players_model`:
`(safe_int(score), safe_int(duration), str(name).lower())`.
(`safe_int` is the identity here, the roster fields being decoded
integers; `.lower()` is modelled by `Char.toLower`, ASCII case folding.) -/
def player_sort_key (p : RawPlayer) : Int × Int × List Char :=
  (p.score, p.duration, p.name.data.map Char.toLower)

/-- The comparison `sorted(players, key=..., reverse=True)` effectively
sorts by: `a` stays before `b` unless `b`'s key strictly exceeds `a`'s
(a stable descending sort), i.e. the stable `mergeSort` under
"key of `b` ≤ key of `a`". -/
def players_desc_le (a b : RawPlayer) : Bool :=
  key_le (player_sort_key b) (player_sort_key a)

/-- One appended row of the players model: the three `QStandardItem`
cells (name, score, formatted time). -/
def render_row (p : RawPlayer) : String × String × String :=
  (p.name, toString p.score, fmt_hms_from_seconds p.duration)

/-- Model of `MainWindow._update_players_model`: clear the model
(`removeRows(0, rowCount)`), then append one three-cell row per player,
the players sorted descending by `(score, duration, name.lower())`. -/
def update_players_model (players : List RawPlayer)
    (model : List (String × String × String)) : List (String × String × String) :=
  let rows := players.mergeSort players_desc_le
  let cleared : List (String × String × String) := (model.take 0)
  rows.foldl (fun m p => m ++ [render_row p]) cleared

theorem charsLe_total (a b : List Char) : charsLe a b = true ∨ charsLe b a = true := by
  induction a generalizing b with
  | nil => left; rfl
  | cons x xs ih =>
    cases b with
    | nil => right; rfl
    | cons y ys =>
      by_cases h1 : x.toNat < y.toNat
      · left; simp [charsLe, h1]
      · by_cases h2 : y.toNat < x.toNat
        · right; simp [charsLe, h1, h2]
        · rcases ih ys with h | h
          · left; simp [charsLe, h1, h2, h]
          · right; simp [charsLe, h1, h2, h]

theorem charsLe_trans (a b c : List Char) (hab : charsLe a b = true)
    (hbc : charsLe b c = true) : charsLe a c = true := by
  induction a generalizing b c with
  | nil => rfl
  | cons x xs ih =>
    cases b with
    | nil => simp [charsLe] at hab
    | cons y ys =>
      cases c with
      | nil => simp [charsLe] at hbc
      | cons z zs =>
        simp only [charsLe] at hab hbc ⊢
        split_ifs at hab hbc ⊢ <;>
          first
          | rfl
          | omega
          | (exact ih ys zs hab hbc)
          | simp_all

theorem key_le_total (a b : Int × Int × List Char) :
    key_le a b = true ∨ key_le b a = true := by
  obtain ⟨a1, a2, a3⟩ := a
  obtain ⟨b1, b2, b3⟩ := b
  simp only [key_le]
  split_ifs with h1 h2 h3 h4 h5 h6 h7 h8 <;>
    first
    | (left; rfl)
    | (right; rfl)
    | omega
    | (exact charsLe_total a3 b3)

theorem key_le_trans (a b c : Int × Int × List Char) (hab : key_le a b = true)
    (hbc : key_le b c = true) : key_le a c = true := by
  obtain ⟨a1, a2, a3⟩ := a
  obtain ⟨b1, b2, b3⟩ := b
  obtain ⟨c1, c2, c3⟩ := c
  simp only [key_le] at hab hbc ⊢
  split_ifs at hab hbc ⊢ <;>
    first
    | rfl
    | omega
    | (exact charsLe_trans a3 b3 c3 hab hbc)

theorem foldl_append_singleton {α β : Type} (f : α → β) (l : List α)
    (acc : List β) :
    l.foldl (fun m p => m ++ [f p]) acc = acc ++ l.map f := by
  induction l generalizing acc with
  | nil => simp
  | cons x xs ih => simp [ih]

unseal List.merge List.mergeSort in
/-- C3 counterexample: for the concrete roster
`[Alice (score 1), Bob (score 2)]` (both with elapsed time 0), the rows
presented are `("Bob", "2", "0s"), ("Alice", "1", "0s")` — Bob's higher
score puts him first, so the order is score-descending rather than
slot-ascending (first-fit slots over this roster would be Alice 1, Bob 2),
and each row is a three-cell (name, score, time) record whose name cell
is the bare name, not a `"[slot] name"` string under either possible
slot number. -/
theorem players_model_rendering_cx :
    update_players_model [⟨"Alice", 1, 0⟩, ⟨"Bob", 2, 0⟩] [] =
      [("Bob", "2", "0s"), ("Alice", "1", "0s")] ∧
    ("Bob" : String) ≠ "[1] Bob" ∧ ("Bob" : String) ≠ "[2] Bob" := by
  refine ⟨?_, by decide, by decide⟩
  decide

/-- C3 amended: after every successful poll, the player rows presented to
the user are a permutation of the roster sorted *descending* by
`(score, duration, lowercased name)` (a stable sort), and each row
renders as the three cells `(name, str(score), fmt_hms(duration))`
(time formatted `"Xh MMm"` / `"Mm SSs"` / `"Ss"`), not as a
slot-prefixed single string. -/
theorem update_players_model_sorted (players : List RawPlayer)
    (model : List (String × String × String)) :
    ∃ qs : List RawPlayer, qs.Perm players ∧
      List.Pairwise (fun a b => players_desc_le a b = true) qs ∧
      update_players_model players model = qs.map render_row := by
  refine ⟨players.mergeSort players_desc_le, List.mergeSort_perm _ _, ?_, ?_⟩
  · exact @List.sorted_mergeSort RawPlayer players_desc_le
      (fun a b c hab hbc =>
        key_le_trans (player_sort_key c) (player_sort_key b) (player_sort_key a) hbc hab)
      (fun a b => by
        rcases key_le_total (player_sort_key b) (player_sort_key a) with h | h <;>
          simp [players_desc_le, h])
      players
  · simp [update_players_model, foldl_append_singleton]

/-! ## The poll-result handler and connectivity state machine
(`MainWindow._apply_poll_result` / `_set_offline_state` /
`_toast_state_transition`, src/reployer.py:1517–1631 and the identical
src/ui/mainWindow.py:490–604) -/

/-- The surrounding context the handler reads but never writes:
profile/prefs fields and the `_can_launch_game()` test. -/
structure Env where
  app_name : String
  profile_name : String
  host : String
  port : Nat
  can_launch : Bool
  fastdl_set : Bool
  alert_on_map_change : Bool
  player_alert_threshold : Int
deriving DecidableEq

/-- The `MainWindow` state the poll-result handler reads or writes: the
failure counter and transition baseline, the rendered labels, the players
model, the action-enabled flags, the tray tooltip and status-bar message,
and (ghost) the toast/sound/transition events fired so far.
`transition_events` records one entry (the new `offline_now` value) each
time `_toast_state_transition` actually fires a notification. -/
structure MonitorState where
  query_fail_count : Nat
  last_offline_state : Option Bool
  last_map : String
  last_player_count : Nat
  last_alert_player_triggered : Bool
  lbl_side_last : String
  lbl_side_status : String
  lbl_ov_state : String
  lbl_ov_server : String
  lbl_side_map : String
  lbl_ov_map : String
  lbl_side_players : String
  lbl_ov_players : String
  players_model : List (String × String × String)
  act_connect : Bool
  act_sourcetv : Bool
  act_download : Bool
  status_message : String
  tray_tooltip : String
  toasts : List String
  sounds : List String
  transition_events : List Bool
deriving DecidableEq

/-- Model of `MainWindow._update_tray_tooltip` (src/ui/mainWindow.py:786). -/
def update_tray_tooltip (env : Env) (st : MonitorState) : MonitorState :=
  { st with tray_tooltip :=
      env.app_name ++ "\n" ++ env.profile_name ++ "\n" ++ env.host ++ ":"
        ++ toString env.port ++ "\n" ++ st.lbl_ov_state ++ "\n"
        ++ st.lbl_side_map ++ "\n" ++ st.lbl_side_players }

/-- Model of `MainWindow._toast_state_transition` (src/reployer.py:1592,
src/ui/mainWindow.py:565): first call sets the baseline silently; later
calls fire a toast and a sound exactly when the boolean flips. -/
def toast_state_transition (offline_now : Bool) (st : MonitorState) : MonitorState :=
  match st.last_offline_state with
  | none => { st with last_offline_state := some offline_now }
  | some prev =>
    if prev ≠ offline_now then
      { st with last_offline_state := some offline_now,
                transition_events := st.transition_events ++ [offline_now],
                toasts := st.toasts ++
                  [if offline_now then "Server went OFFLINE" else "Server is ONLINE"],
                sounds := st.sounds ++
                  [if offline_now then "offline.wav" else "online.wav"] }
    else st

/-- Model of `MainWindow._set_offline_state` (src/reployer.py:1577,
src/ui/mainWindow.py:550). -/
def set_offline_state (env : Env) (reason : String) (st : MonitorState) : MonitorState :=
  let st := toast_state_transition true st
  let st := { st with lbl_side_status := "Status: OFFLINE", lbl_ov_state := "OFFLINE",
                      act_connect := false, act_sourcetv := false, act_download := false }
  let st := if reason ≠ "" then { st with status_message := "Offline: " ++ reason } else st
  update_tray_tooltip env st

/-- Model of `MainWindow._handle_alerts` (src/ui/mainWindow.py:774). -/
def handle_alerts (env : Env) (player_count : Nat) (st : MonitorState) : MonitorState :=
  if 0 < env.player_alert_threshold then
    if env.player_alert_threshold ≤ (player_count : Int) then
      if !st.last_alert_player_triggered then
        { st with last_alert_player_triggered := true,
                  toasts := st.toasts ++
                    ["Player alert: " ++ toString player_count ++ " players (≥ "
                      ++ toString env.player_alert_threshold ++ ")"],
                  sounds := st.sounds ++ ["information.wav"] }
      else st
    else { st with last_alert_player_triggered := false }
  else st

/-- Model of `MainWindow._apply_poll_result` (src/reployer.py:1517,
src/ui/mainWindow.py:490).  `utc` is the `now_utc_hms()` sample.  The
CSV log append, the graph re-render and the download-worker launch on
map change touch no `MonitorState` field and are not modelled. -/
def apply_poll_result (env : Env) (utc : String) (result : PollResult)
    (st : MonitorState) : MonitorState :=
  let st := { st with lbl_side_last := utc }
  if result.ok then
    let st := { st with query_fail_count := 0 }
    let st := toast_state_transition false st
    let st := { st with lbl_side_status := "Status: ONLINE", lbl_ov_state := "ONLINE",
                        lbl_ov_server := result.server_name,
                        lbl_side_map := result.map_name, lbl_ov_map := result.map_name }
    let players_text :=
      if result.max_players ≠ 0 then
        toString result.player_count ++ "/" ++ toString result.max_players
      else toString result.player_count
    let st := { st with lbl_side_players := players_text, lbl_ov_players := players_text }
    let st := { st with act_connect := env.can_launch, act_sourcetv := env.can_launch,
                        act_download := env.fastdl_set && decide (result.map_name ≠ "Unknown") }
    let st := { st with players_model := update_players_model result.players st.players_model }
    let st := handle_alerts env result.player_count st
    let st :=
      if env.alert_on_map_change ∧ st.last_map ≠ "Unknown" ∧ st.last_map ≠ result.map_name
      then { st with toasts := st.toasts ++
              ["Map changed: " ++ st.last_map ++ " → " ++ result.map_name] }
      else st
    let st := { st with last_map := result.map_name,
                        last_player_count := result.player_count }
    update_tray_tooltip env st
  else
    let st := { st with query_fail_count := st.query_fail_count + 1 }
    let offline_now : Bool := decide (st.query_fail_count ≥ 5)
    let st := { st with status_message :=
      "Last update (UTC): " ++ utc ++ " | ✗ Query failed" }
    if offline_now then
      update_tray_tooltip env (set_offline_state env result.error st)
    else
      update_tray_tooltip env
        { st with lbl_side_status := "Status: Unstable…", lbl_ov_state := "UNSTABLE" }

/-- The `MainWindow.__init__` values of the handler-owned state
(src/ui/mainWindow.py:45–49); the label/tooltip strings start as the
placeholder texts built by `_build_ui`, none of which the claims read. -/
def init_state : MonitorState where
  query_fail_count := 0
  last_offline_state := none
  last_map := "Unknown"
  last_player_count := 0
  last_alert_player_triggered := false
  lbl_side_last := ""
  lbl_side_status := ""
  lbl_ov_state := ""
  lbl_ov_server := ""
  lbl_side_map := ""
  lbl_ov_map := ""
  lbl_side_players := ""
  lbl_ov_players := ""
  players_model := []
  act_connect := false
  act_sourcetv := false
  act_download := false
  status_message := ""
  tray_tooltip := ""
  toasts := []
  sounds := []
  transition_events := []

/-- Deliver a sequence of poll outcomes to the handler in order (the
`now_utc_hms()` timestamp, which no claim over sequences reads, is
fixed to `""`). -/
def run_polls (env : Env) (results : List PollResult) (st : MonitorState) : MonitorState :=
  results.foldl (fun s r => apply_poll_result env "" r s) st

/-- Claim vocabulary: the number of consecutive `ok = false` outcomes at
the end of a sequence. -/
def trailing_fail_count (rs : List PollResult) : Nat :=
  (rs.reverse.takeWhile (fun r => !r.ok)).length

/-- Claim vocabulary: the three connectivity states of the spec. -/
inductive ConnState
  | online
  | unstable
  | offline
deriving DecidableEq

/-- Claim vocabulary: the connectivity state shown by the overview state
label (`lbl_ov_state`). -/
def shown_state (st : MonitorState) : Option ConnState :=
  if st.lbl_ov_state = "OFFLINE" then some .offline
  else if st.lbl_ov_state = "UNSTABLE" then some .unstable
  else if st.lbl_ov_state = "ONLINE" then some .online
  else none

theorem run_polls_append (env : Env) (rs : List PollResult) (r : PollResult)
    (st : MonitorState) :
    run_polls env (rs ++ [r]) st = apply_poll_result env "" r (run_polls env rs st) := by
  simp [run_polls]

theorem trailing_fail_count_append (rs : List PollResult) (r : PollResult) :
    trailing_fail_count (rs ++ [r]) =
      if r.ok then 0 else trailing_fail_count rs + 1 := by
  unfold trailing_fail_count
  rw [List.reverse_append]
  cases h : r.ok <;> simp [h, List.takeWhile]

theorem toast_state_transition_fields (b : Bool) (st : MonitorState) :
    (toast_state_transition b st).query_fail_count = st.query_fail_count ∧
    (toast_state_transition b st).lbl_ov_state = st.lbl_ov_state ∧
    (toast_state_transition b st).lbl_side_status = st.lbl_side_status ∧
    (toast_state_transition b st).lbl_ov_server = st.lbl_ov_server ∧
    (toast_state_transition b st).lbl_side_map = st.lbl_side_map ∧
    (toast_state_transition b st).lbl_ov_map = st.lbl_ov_map ∧
    (toast_state_transition b st).lbl_side_players = st.lbl_side_players ∧
    (toast_state_transition b st).lbl_ov_players = st.lbl_ov_players ∧
    (toast_state_transition b st).players_model = st.players_model ∧
    (toast_state_transition b st).last_map = st.last_map ∧
    (toast_state_transition b st).last_player_count = st.last_player_count ∧
    (toast_state_transition b st).lbl_side_last = st.lbl_side_last ∧
    (toast_state_transition b st).status_message = st.status_message := by
  unfold toast_state_transition
  cases st.last_offline_state <;> simp <;> split_ifs <;> simp

theorem handle_alerts_fields (env : Env) (n : Nat) (st : MonitorState) :
    (handle_alerts env n st).query_fail_count = st.query_fail_count ∧
    (handle_alerts env n st).last_offline_state = st.last_offline_state ∧
    (handle_alerts env n st).transition_events = st.transition_events ∧
    (handle_alerts env n st).lbl_ov_state = st.lbl_ov_state ∧
    (handle_alerts env n st).lbl_side_status = st.lbl_side_status ∧
    (handle_alerts env n st).lbl_ov_server = st.lbl_ov_server ∧
    (handle_alerts env n st).lbl_side_map = st.lbl_side_map ∧
    (handle_alerts env n st).lbl_ov_map = st.lbl_ov_map ∧
    (handle_alerts env n st).lbl_side_players = st.lbl_side_players ∧
    (handle_alerts env n st).lbl_ov_players = st.lbl_ov_players ∧
    (handle_alerts env n st).players_model = st.players_model ∧
    (handle_alerts env n st).last_map = st.last_map ∧
    (handle_alerts env n st).last_player_count = st.last_player_count ∧
    (handle_alerts env n st).lbl_side_last = st.lbl_side_last := by
  unfold handle_alerts
  split_ifs <;> simp

theorem set_offline_state_fields (env : Env) (reason : String) (st : MonitorState) :
    (set_offline_state env reason st).query_fail_count = st.query_fail_count ∧
    (set_offline_state env reason st).lbl_ov_state = "OFFLINE" ∧
    (set_offline_state env reason st).lbl_ov_server = st.lbl_ov_server ∧
    (set_offline_state env reason st).lbl_side_map = st.lbl_side_map ∧
    (set_offline_state env reason st).lbl_ov_map = st.lbl_ov_map ∧
    (set_offline_state env reason st).lbl_side_players = st.lbl_side_players ∧
    (set_offline_state env reason st).lbl_ov_players = st.lbl_ov_players ∧
    (set_offline_state env reason st).players_model = st.players_model ∧
    (set_offline_state env reason st).last_map = st.last_map ∧
    (set_offline_state env reason st).last_player_count = st.last_player_count ∧
    (set_offline_state env reason st).lbl_side_last = st.lbl_side_last ∧
    (set_offline_state env reason st).last_offline_state =
      (toast_state_transition true st).last_offline_state ∧
    (set_offline_state env reason st).transition_events =
      (toast_state_transition true st).transition_events := by
  unfold set_offline_state update_tray_tooltip
  have hf := toast_state_transition_fields true st
  split_ifs <;> simp_all

/-- The overview state label after one handler call: `"ONLINE"` on a
successful poll, `"OFFLINE"` once the (incremented) failure counter
reaches 5, `"UNSTABLE"` below that. -/
theorem apply_poll_result_lbl_ov_state (env : Env) (utc : String)
    (r : PollResult) (st : MonitorState) :
    (apply_poll_result env utc r st).lbl_ov_state =
      if r.ok then "ONLINE"
      else if 5 ≤ st.query_fail_count + 1 then "OFFLINE" else "UNSTABLE" := by
  unfold apply_poll_result
  cases h : r.ok
  · simp only [h, if_false, Bool.false_eq_true]
    by_cases h5 : 5 ≤ st.query_fail_count + 1
    · simp [h5, update_tray_tooltip, set_offline_state_fields]
    · simp [h5, update_tray_tooltip]
  · simp only [h, if_true]
    simp only [update_tray_tooltip]
    split_ifs <;> simp [handle_alerts_fields, toast_state_transition_fields]

/-- The failure counter after one handler call. -/
theorem apply_poll_result_query_fail_count (env : Env) (utc : String)
    (r : PollResult) (st : MonitorState) :
    (apply_poll_result env utc r st).query_fail_count =
      if r.ok then 0 else st.query_fail_count + 1 := by
  unfold apply_poll_result
  cases h : r.ok
  · simp only [h, if_false, Bool.false_eq_true]
    by_cases h5 : 5 ≤ st.query_fail_count + 1
    · simp [h5, update_tray_tooltip, set_offline_state_fields]
    · simp [h5, update_tray_tooltip]
  · simp only [h, if_true]
    simp only [update_tray_tooltip]
    split_ifs <;> simp [handle_alerts_fields, toast_state_transition_fields]

/-- The machine's failure counter tracks the trailing failure count of
the delivered sequence. -/
theorem run_polls_query_fail_count (env : Env) (rs : List PollResult) :
    (run_polls env rs init_state).query_fail_count = trailing_fail_count rs := by
  induction rs using List.reverseRecOn with
  | nil => rfl
  | append_singleton rs r ih =>
    rw [run_polls_append, apply_poll_result_query_fail_count,
      trailing_fail_count_append, ih]

/-- C1: for every finite sequence of poll outcomes delivered to
`_apply_poll_result`, the connectivity state shown after the latest
outcome is OFFLINE iff the number of consecutive failed outcomes ending
at the latest one is ≥ 5, UNSTABLE iff that count is in [1, 5), and
ONLINE iff the latest outcome has `ok = true`. -/
theorem connectivity_state_iff (env : Env) (rs : List PollResult) (r : PollResult) :
    (shown_state (run_polls env (rs ++ [r]) init_state) = some ConnState.offline ↔
      5 ≤ trailing_fail_count (rs ++ [r])) ∧
    (shown_state (run_polls env (rs ++ [r]) init_state) = some ConnState.unstable ↔
      (1 ≤ trailing_fail_count (rs ++ [r]) ∧ trailing_fail_count (rs ++ [r]) < 5)) ∧
    (shown_state (run_polls env (rs ++ [r]) init_state) = some ConnState.online ↔
      r.ok = true) := by
  have hlbl := apply_poll_result_lbl_ov_state env "" r (run_polls env rs init_state)
  have hcnt := run_polls_query_fail_count env rs
  have htr := trailing_fail_count_append rs r
  rw [run_polls_append]
  cases h : r.ok
  · by_cases h5 : 5 ≤ trailing_fail_count rs + 1
    · rw [show trailing_fail_count (rs ++ [r]) = trailing_fail_count rs + 1 by
        rw [htr, h]; rfl]
      simp only [shown_state, hlbl, h, hcnt, if_false, Bool.false_eq_true, h5, if_true]
      refine ⟨by simp [h5], by constructor <;> (intro hx) <;> (first | omega | simp_all), ?_⟩
      constructor <;> intro hx <;> simp_all
    · rw [show trailing_fail_count (rs ++ [r]) = trailing_fail_count rs + 1 by
        rw [htr, h]; rfl]
      simp only [shown_state, hlbl, h, hcnt, if_false, Bool.false_eq_true, h5]
      refine ⟨?_, ?_, ?_⟩
      · constructor <;> intro hx <;> simp_all
      · constructor <;> intro hx
        · omega
        · simp
      · constructor <;> intro hx <;> simp_all
  · rw [show trailing_fail_count (rs ++ [r]) = 0 by rw [htr, h]; rfl]
    simp only [shown_state, hlbl, h, if_true]
    refine ⟨by constructor <;> intro hx <;> simp_all, ?_, by simp⟩
    constructor <;> intro hx
    · simp_all
    · omega

theorem run_polls_cons (env : Env) (r : PollResult) (rs : List PollResult)
    (st : MonitorState) :
    run_polls env (r :: rs) st = run_polls env rs (apply_poll_result env "" r st) := by
  simp [run_polls]

/-- On a failed poll, the handler leaves every rendered-data field
unchanged (both branches, UNSTABLE and OFFLINE), and sets the last-poll
time label. -/
theorem apply_poll_result_failure_preserves (env : Env) (utc : String)
    (r : PollResult) (st : MonitorState) (h : r.ok = false) :
    (apply_poll_result env utc r st).lbl_ov_server = st.lbl_ov_server ∧
    (apply_poll_result env utc r st).lbl_side_map = st.lbl_side_map ∧
    (apply_poll_result env utc r st).lbl_ov_map = st.lbl_ov_map ∧
    (apply_poll_result env utc r st).lbl_side_players = st.lbl_side_players ∧
    (apply_poll_result env utc r st).lbl_ov_players = st.lbl_ov_players ∧
    (apply_poll_result env utc r st).players_model = st.players_model ∧
    (apply_poll_result env utc r st).last_map = st.last_map ∧
    (apply_poll_result env utc r st).last_player_count = st.last_player_count ∧
    (apply_poll_result env utc r st).lbl_side_last = utc := by
  unfold apply_poll_result
  simp only [h, if_false, Bool.false_eq_true]
  by_cases h5 : 5 ≤ st.query_fail_count + 1 <;>
    simp [h5, update_tray_tooltip, set_offline_state_fields]

/-- C8: when a poll outcome has `ok = false`, the handler leaves the
previously rendered server name, map name, player-count text and player
table rows unchanged, setting only the status/state indicators and the
last-poll time; and over any run of failed polls the previously rendered
data persists unchanged until the next successful poll. -/
theorem failed_polls_preserve_rendered_data (env : Env) (utc : String)
    (r : PollResult) (st : MonitorState) (h : r.ok = false) :
    ((apply_poll_result env utc r st).lbl_ov_server = st.lbl_ov_server ∧
     (apply_poll_result env utc r st).lbl_side_map = st.lbl_side_map ∧
     (apply_poll_result env utc r st).lbl_ov_map = st.lbl_ov_map ∧
     (apply_poll_result env utc r st).lbl_side_players = st.lbl_side_players ∧
     (apply_poll_result env utc r st).lbl_ov_players = st.lbl_ov_players ∧
     (apply_poll_result env utc r st).players_model = st.players_model ∧
     (apply_poll_result env utc r st).lbl_side_last = utc) ∧
    (∀ fs : List PollResult, (∀ x ∈ fs, x.ok = false) →
      (run_polls env fs st).lbl_ov_server = st.lbl_ov_server ∧
      (run_polls env fs st).lbl_side_map = st.lbl_side_map ∧
      (run_polls env fs st).lbl_ov_map = st.lbl_ov_map ∧
      (run_polls env fs st).lbl_side_players = st.lbl_side_players ∧
      (run_polls env fs st).lbl_ov_players = st.lbl_ov_players ∧
      (run_polls env fs st).players_model = st.players_model) := by
  have hiter : ∀ (fs : List PollResult) (s : MonitorState), (∀ x ∈ fs, x.ok = false) →
      (run_polls env fs s).lbl_ov_server = s.lbl_ov_server ∧
      (run_polls env fs s).lbl_side_map = s.lbl_side_map ∧
      (run_polls env fs s).lbl_ov_map = s.lbl_ov_map ∧
      (run_polls env fs s).lbl_side_players = s.lbl_side_players ∧
      (run_polls env fs s).lbl_ov_players = s.lbl_ov_players ∧
      (run_polls env fs s).players_model = s.players_model := by
    intro fs
    induction fs with
    | nil => intro s _; exact ⟨rfl, rfl, rfl, rfl, rfl, rfl⟩
    | cons f ft ih =>
      intro s hall
      obtain ⟨g1, g2, g3, g4, g5, g6, _, _, _⟩ :=
        apply_poll_result_failure_preserves env "" f s (hall f (by simp))
      have hrec := ih (apply_poll_result env "" f s) (fun x hx => hall x (by simp [hx]))
      rw [run_polls_cons]
      exact ⟨hrec.1.trans g1, hrec.2.1.trans g2, hrec.2.2.1.trans g3,
        hrec.2.2.2.1.trans g4, hrec.2.2.2.2.1.trans g5, hrec.2.2.2.2.2.trans g6⟩
  obtain ⟨h1, h2, h3, h4, h5, h6, _, _, h9⟩ :=
    apply_poll_result_failure_preserves env utc r st h
  exact ⟨⟨h1, h2, h3, h4, h5, h6, h9⟩, fun fs hf => hiter fs st hf⟩

/-- A concrete environment for closed instances. -/
def sample_env : Env :=
  ⟨"Reployer++", "My Server", "192.0.2.7", 27015, true, true, false, 0⟩

/-- A concrete failed poll outcome, as `_poll_server_once` builds one. -/
def fail_poll : PollResult :=
  ⟨false, "192.0.2.7:27015", "Unknown", 0, 0, [], "timed out"⟩

/-- A concrete monitor state holding rendered data. -/
def sample_state : MonitorState :=
  { init_state with lbl_ov_server := "My Server", lbl_side_map := "cp_dustbowl",
                    lbl_ov_map := "cp_dustbowl", lbl_side_players := "3/24",
                    lbl_ov_players := "3/24",
                    players_model := [("Bob", "2", "0s")], last_offline_state := some false }

/-- Witness for C8: at a concrete failed poll and concrete state, the
hypotheses hold and the player table is untouched. -/
theorem failed_polls_preserve_witness :
    fail_poll.ok = false ∧
    (apply_poll_result sample_env "12:00:00" fail_poll sample_state).players_model =
      sample_state.players_model :=
  ⟨rfl, (failed_polls_preserve_rendered_data sample_env "12:00:00" fail_poll
      sample_state rfl).1.2.2.2.2.2.1⟩

/-! ## Transition-notification counting (claim C2) -/

/-- The failure-counter recurrence of `_apply_poll_result`, folded over a
sequence from an arbitrary starting count. -/
def fail_acc (c : Nat) (rs : List PollResult) : Nat :=
  rs.foldl (fun c r => if r.ok then 0 else c + 1) c

/-- Claim vocabulary: each outcome classified as offline (the consecutive
failure count, at that outcome, has reached 5). -/
def offline_flags_aux (c : Nat) : List PollResult → List Bool
  | [] => []
  | r :: rest =>
    decide (5 ≤ if r.ok then 0 else c + 1) ::
      offline_flags_aux (if r.ok then 0 else c + 1) rest

/-- Claim vocabulary: the offline classification of every outcome of the
sequence, in order. -/
def offline_flags (rs : List PollResult) : List Bool :=
  offline_flags_aux 0 rs

/-- Claim vocabulary: the number of boundaries between maximal runs in a
classification sequence. -/
def num_boundaries : List Bool → Nat
  | [] => 0
  | [_] => 0
  | a :: b :: t => (if a = b then 0 else 1) + num_boundaries (b :: t)

/-- The sequence opens with five consecutive failed outcomes (so its
first offline run begins with no prior successful poll). -/
def starts_with_five_fails (rs : List PollResult) : Bool :=
  decide (5 ≤ rs.length) && (rs.take 5).all (fun r => !r.ok)

theorem fail_acc_append (c : Nat) (xs : List PollResult) (y : PollResult) :
    fail_acc c (xs ++ [y]) = if y.ok then 0 else fail_acc c xs + 1 := by
  simp [fail_acc]

theorem fail_acc_eq_trailing (rs : List PollResult) :
    fail_acc 0 rs = trailing_fail_count rs := by
  induction rs using List.reverseRecOn with
  | nil => rfl
  | append_singleton xs y ih => rw [fail_acc_append, trailing_fail_count_append, ih]

theorem offline_flags_aux_append (xs : List PollResult) (y : PollResult) :
    ∀ c, offline_flags_aux c (xs ++ [y]) =
      offline_flags_aux c xs ++ [decide (5 ≤ if y.ok then 0 else fail_acc c xs + 1)] := by
  induction xs with
  | nil => intro c; rfl
  | cons x xt ih =>
    intro c
    have hfa : fail_acc c (x :: xt) = fail_acc (if x.ok then 0 else c + 1) xt := by
      simp [fail_acc]
    simp only [List.cons_append, offline_flags_aux, List.append_eq]
    rw [ih, hfa]

theorem offline_flags_length_aux (xs : List PollResult) :
    ∀ c, (offline_flags_aux c xs).length = xs.length := by
  induction xs with
  | nil => intro c; rfl
  | cons x xt ih => intro c; simp [offline_flags_aux, ih]

theorem num_boundaries_append (xs : List Bool) (y : Bool) :
    num_boundaries (xs ++ [y]) =
      num_boundaries xs +
        (match xs.getLast? with
         | none => 0
         | some z => if z = y then 0 else 1) := by
  induction xs with
  | nil => rfl
  | cons a t ih =>
    cases t with
    | nil => simp [num_boundaries]
    | cons b t2 =>
      rw [List.cons_append, List.cons_append]
      show (if a = b then 0 else 1) + num_boundaries (b :: (t2 ++ [y])) = _
      rw [show b :: (t2 ++ [y]) = (b :: t2) ++ [y] by rfl, ih,
        List.getLast?_cons_cons]
      show _ = (if a = b then 0 else 1) + num_boundaries (b :: t2) + _
      omega

theorem num_boundaries_all_false (flags : List Bool)
    (h : ∀ b ∈ flags, b = false) : num_boundaries flags = 0 := by
  induction flags with
  | nil => rfl
  | cons a t ih =>
    cases t with
    | nil => rfl
    | cons b t2 =>
      have ha : a = false := h a (by simp)
      have hb : b = false := h b (by simp)
      subst ha
      subst hb
      show (if (false : Bool) = false then 0 else 1) + num_boundaries (false :: t2) = 0
      rw [if_pos rfl, ih (fun x hx => h x (List.mem_cons_of_mem false hx))]

theorem getLast?_all_false (l : List Bool) (h : l ≠ [])
    (h2 : ∀ b ∈ l, b = false) : l.getLast? = some false := by
  induction l with
  | nil => exact absurd rfl h
  | cons a t ih =>
    cases t with
    | nil => simpa using h2 a (by simp)
    | cons b t2 =>
      rw [List.getLast?_cons_cons]
      exact ih (by simp) (fun x hx => h2 x (List.mem_cons_of_mem a hx))

theorem trailing_all_fail (rs : List PollResult) (h : ∀ x ∈ rs, x.ok = false) :
    trailing_fail_count rs = rs.length := by
  unfold trailing_fail_count
  rw [List.takeWhile_eq_self_iff.mpr (by simp_all), List.length_reverse]

theorem tst_last_offline (b : Bool) (st : MonitorState) :
    (toast_state_transition b st).last_offline_state = some b := by
  unfold toast_state_transition
  cases h : st.last_offline_state with
  | none => rfl
  | some prev =>
    simp only [h]
    by_cases hpb : prev = b
    · simp [hpb, h]
    · simp [hpb]

theorem tst_events (b : Bool) (st : MonitorState) :
    (toast_state_transition b st).transition_events =
      st.transition_events ++
        (if st.last_offline_state = some (!b) then [b] else []) := by
  unfold toast_state_transition
  cases h : st.last_offline_state with
  | none => simp [h]
  | some prev =>
    simp only [h]
    by_cases hpb : prev = b
    · subst hpb
      rw [if_neg (show ¬(prev ≠ prev) from by simp)]
      cases prev <;> simp
    · have hx : prev = !b := by cases prev <;> cases b <;> simp_all
      subst hx
      simp [h]

/-- The transition baseline after one handler call. -/
theorem apply_poll_result_last_offline (env : Env) (utc : String)
    (r : PollResult) (st : MonitorState) :
    (apply_poll_result env utc r st).last_offline_state =
      if r.ok then some false
      else if 5 ≤ st.query_fail_count + 1 then some true
      else st.last_offline_state := by
  unfold apply_poll_result
  cases h : r.ok
  · simp only [h, if_false, Bool.false_eq_true]
    by_cases h5 : 5 ≤ st.query_fail_count + 1
    · simp [h5, update_tray_tooltip, set_offline_state_fields, tst_last_offline]
    · simp [h5, update_tray_tooltip]
  · simp only [h, if_true]
    simp only [update_tray_tooltip]
    split_ifs <;> simp [handle_alerts_fields, tst_last_offline, *]

/-- The fired transition notifications after one handler call: one fires
exactly when the projected online/offline boolean is delivered to
`_toast_state_transition` and differs from a set baseline. -/
theorem apply_poll_result_events (env : Env) (utc : String)
    (r : PollResult) (st : MonitorState) :
    (apply_poll_result env utc r st).transition_events =
      if r.ok then
        st.transition_events ++
          (if st.last_offline_state = some true then [false] else [])
      else if 5 ≤ st.query_fail_count + 1 then
        st.transition_events ++
          (if st.last_offline_state = some false then [true] else [])
      else st.transition_events := by
  unfold apply_poll_result
  cases h : r.ok
  · simp only [h, if_false, Bool.false_eq_true]
    by_cases h5 : 5 ≤ st.query_fail_count + 1
    · simp [h5, update_tray_tooltip, set_offline_state_fields, tst_events]
    · simp [h5, update_tray_tooltip]
  · simp only [h, if_true]
    simp only [update_tray_tooltip]
    split_ifs <;> simp [handle_alerts_fields, tst_events, *]

theorem swff_length (rs : List PollResult)
    (h : starts_with_five_fails rs = true) : 5 ≤ rs.length := by
  simp only [starts_with_five_fails, Bool.and_eq_true, decide_eq_true_eq] at h
  exact h.1

theorem swff_short (rs : List PollResult) (h : rs.length < 5) :
    starts_with_five_fails rs = false := by
  unfold starts_with_five_fails
  rw [decide_eq_false (by omega), Bool.false_and]

theorem swff_append_stable (rs : List PollResult) (r : PollResult)
    (h : 5 ≤ rs.length ∨ ∃ x ∈ rs, x.ok = true) :
    starts_with_five_fails (rs ++ [r]) = starts_with_five_fails rs := by
  by_cases hlen : 5 ≤ rs.length
  · unfold starts_with_five_fails
    have h2 : 5 ≤ (rs ++ [r]).length := by simp; omega
    rw [List.take_append_of_le_length hlen, decide_eq_true h2, decide_eq_true hlen]
  · rcases h with h | ⟨x, hx, hxok⟩
    · exact absurd h hlen
    · rw [swff_short rs (by omega)]
      by_cases h2 : (rs ++ [r]).length < 5
      · exact swff_short _ h2
      · unfold starts_with_five_fails
        have hr5 : (rs ++ [r]).length = 5 := by simp at h2 ⊢; omega
        rw [List.take_of_length_le (le_of_eq hr5)]
        have hall : ((rs ++ [r]).all fun x => !x.ok) = false := by
          apply List.all_eq_false.mpr
          exact ⟨x, List.mem_append_left _ hx, by simp [hxok]⟩
        simp [hall]

theorem swff_of_five (rs : List PollResult) (r : PollResult)
    (hlen : rs.length = 4) (hall : ∀ x ∈ rs, x.ok = false)
    (hr : r.ok = false) : starts_with_five_fails (rs ++ [r]) = true := by
  unfold starts_with_five_fails
  have h5 : (rs ++ [r]).length = 5 := by simp [hlen]
  rw [List.take_of_length_le (le_of_eq h5)]
  simp only [Bool.and_eq_true, decide_eq_true_eq, List.all_eq_true]
  refine ⟨by omega, ?_⟩
  intro x hx
  rcases List.mem_append.mp hx with hx | hx
  · simp [hall x hx]
  · simp at hx
    simp [hx, hr]

theorem swff_append_success (rs : List PollResult) (r : PollResult)
    (hlen : rs.length < 5) (hr : r.ok = true) :
    starts_with_five_fails (rs ++ [r]) = false := by
  by_cases h2 : (rs ++ [r]).length < 5
  · exact swff_short _ h2
  · unfold starts_with_five_fails
    have hr5 : (rs ++ [r]).length = 5 := by simp at h2 ⊢; omega
    rw [List.take_of_length_le (le_of_eq hr5)]
    have hall : ((rs ++ [r]).all fun x => !x.ok) = false := by
      apply List.all_eq_false.mpr
      exact ⟨r, List.mem_append_right _ (by simp), by simp [hr]⟩
    simp [hall]

/-- The machine invariant for transition counting: either no baseline is
set yet (a short all-failure prefix, nothing fired, all classifications
false), or the baseline equals the latest offline classification and the
number of fired notifications accounts for every boundary except a
leading five-failure run's entry into OFFLINE. -/
theorem run_polls_transition_invariant (env : Env) (rs : List PollResult) :
    ((run_polls env rs init_state).last_offline_state = none ∧
     (run_polls env rs init_state).transition_events = [] ∧
     (∀ b ∈ offline_flags rs, b = false) ∧ rs.length < 5 ∧
     (∀ x ∈ rs, x.ok = false))
    ∨ (∃ b, (run_polls env rs init_state).last_offline_state = some b ∧
        (offline_flags rs).getLast? = some b ∧
        (run_polls env rs init_state).transition_events.length +
            (if starts_with_five_fails rs = true then 1 else 0) =
          num_boundaries (offline_flags rs) ∧
        (b = true → 5 ≤ (run_polls env rs init_state).query_fail_count) ∧
        ((∃ x ∈ rs, x.ok = true) ∨ starts_with_five_fails rs = true)) := by
  induction rs using List.reverseRecOn with
  | nil =>
    left
    refine ⟨rfl, rfl, ?_, by simp, by simp⟩
    intro b hb
    simp [offline_flags, offline_flags_aux] at hb
  | append_singleton xs r ih =>
    have hflags : offline_flags (xs ++ [r]) =
        offline_flags xs ++
          [decide (5 ≤ if r.ok then 0 else trailing_fail_count xs + 1)] := by
      unfold offline_flags
      rw [offline_flags_aux_append, fail_acc_eq_trailing]
    have hcnt := run_polls_query_fail_count env xs
    have hlast := apply_poll_result_last_offline env "" r (run_polls env xs init_state)
    have hev := apply_poll_result_events env "" r (run_polls env xs init_state)
    have hcnt' := apply_poll_result_query_fail_count env "" r (run_polls env xs init_state)
    rw [run_polls_append]
    rcases ih with ⟨hL, hE, hFall, hlen, hallfail⟩ | ⟨b, hL, hgl, heq, hbt, hor⟩
    · -- no baseline yet
      cases hok : r.ok
      · by_cases h5 : 5 ≤ trailing_fail_count xs + 1
        · -- a leading all-failure run reaches the threshold: baseline set silently
          have hlen4 : xs.length = 4 := by
            have := trailing_all_fail xs hallfail
            omega
          right
          refine ⟨true, ?_, ?_, ?_, ?_, ?_⟩
          · rw [hlast]; simp [hok, hcnt, h5]
          · rw [hflags, List.getLast?_concat]
            simp [hok, h5]
          · rw [hev]
            simp only [hok, if_false, Bool.false_eq_true, hcnt, h5, if_true, hL]
            rw [swff_of_five xs r hlen4 hallfail hok, hflags, num_boundaries_append,
              getLast?_all_false _ (by
                intro hnil
                have := offline_flags_length_aux xs 0
                rw [show offline_flags_aux 0 xs = offline_flags xs from rfl, hnil] at this
                simp at this
                omega) hFall,
              num_boundaries_all_false _ hFall]
            simp [hE, hok, h5]
          · intro _
            rw [hcnt']
            simp [hok, hcnt]
            omega
          · right
            exact swff_of_five xs r hlen4 hallfail hok
        · -- still below the threshold: no baseline
          left
          refine ⟨?_, ?_, ?_, ?_, ?_⟩
          · rw [hlast]; simp [hok, hcnt, h5, hL]
          · rw [hev]; simp [hok, hcnt, h5, hE]
          · rw [hflags]
            intro b hb
            rcases List.mem_append.mp hb with hb | hb
            · exact hFall b hb
            · simp [hok] at hb
              simp [hb]
              omega
          · have := trailing_all_fail xs hallfail
            simp
            omega
          · intro x hx
            rcases List.mem_append.mp hx with hx | hx
            · exact hallfail x hx
            · simp at hx; simp [hx, hok]
      · -- first success: baseline set silently to online
        right
        refine ⟨false, ?_, ?_, ?_, ?_, ?_⟩
        · rw [hlast]; simp [hok]
        · rw [hflags, List.getLast?_concat]; simp [hok]
        · rw [hev]
          simp only [hok, if_true, hL, hE]
          rw [swff_append_success xs r hlen hok, hflags, num_boundaries_append]
          by_cases hF : offline_flags xs = []
          · simp [hF, num_boundaries]
          · rw [getLast?_all_false _ hF hFall, num_boundaries_all_false _ hFall]
            simp [hok]
        · simp
        · left; exact ⟨r, by simp, hok⟩
    · -- baseline set: it equals the latest classification
      have hswge : 5 ≤ xs.length ∨ ∃ x ∈ xs, x.ok = true := by
        rcases hor with h | h
        · right; exact h
        · left; exact swff_length xs h
      have hstable := swff_append_stable xs r hswge
      have hor' : (∃ x ∈ xs ++ [r], x.ok = true) ∨
          starts_with_five_fails (xs ++ [r]) = true := by
        rcases hor with ⟨x, hx, hxok⟩ | h
        · left; exact ⟨x, List.mem_append_left _ hx, hxok⟩
        · right; rw [hstable]; exact h
      cases hok : r.ok
      · by_cases h5 : 5 ≤ trailing_fail_count xs + 1
        · -- failure crossing (or staying past) the threshold
          right
          refine ⟨true, ?_, ?_, ?_, ?_, hor'⟩
          · rw [hlast]; simp [hok, hcnt, h5]
          · rw [hflags, List.getLast?_concat]; simp [hok, h5]
          · rw [hev]
            simp only [hok, if_false, Bool.false_eq_true, hcnt, h5, if_true, hL]
            rw [hstable, hflags, num_boundaries_append, hgl]
            have hnewb : decide (5 ≤ if r.ok then 0 else trailing_fail_count xs + 1) = true := by
              simp [hok, h5]
            rw [hnewb]
            cases hb : b
            · simp only [hb] at heq ⊢
              simp only [Option.some.injEq, if_true, List.length_append]
              generalize (if starts_with_five_fails xs = true then 1 else 0) = off at heq ⊢
              simp
              omega
            · simp only [hb] at heq ⊢
              simp only [Option.some.injEq]
              generalize (if starts_with_five_fails xs = true then 1 else 0) = off at heq ⊢
              simp
              omega
          · intro _
            rw [hcnt']
            simp [hok, hcnt]
            omega
        · -- failure below the threshold: the baseline must be online
          have hbf : b = false := by
            by_contra hb
            have hb' : b = true := by cases b <;> simp_all
            have := hbt hb'
            rw [hcnt] at this
            omega
          subst hbf
          right
          refine ⟨false, ?_, ?_, ?_, ?_, hor'⟩
          · rw [hlast]; simp [hok, hcnt, h5, hL]
          · rw [hflags, List.getLast?_concat]; simp [hok, h5]
          · rw [hev]
            simp only [hok, if_false, Bool.false_eq_true, hcnt, h5, if_false]
            rw [hstable, hflags, num_boundaries_append, hgl]
            have hnewb : decide (5 ≤ if r.ok then 0 else trailing_fail_count xs + 1) = false := by
              simp [hok]
              omega
            rw [hnewb]
            simpa using heq
          · simp
      · -- success: baseline becomes online, firing iff it was offline
        right
        refine ⟨false, ?_, ?_, ?_, ?_, ?_⟩
        · rw [hlast]; simp [hok]
        · rw [hflags, List.getLast?_concat]; simp [hok]
        · rw [hev]
          simp only [hok, if_true, hL]
          rw [hstable, hflags, num_boundaries_append, hgl]
          have hnewb : decide (5 ≤ if r.ok then 0 else trailing_fail_count xs + 1) = false := by
            simp [hok]
          rw [hnewb]
          cases hb : b
          · simp only [hb] at heq ⊢
            simpa using heq
          · simp only [hb] at heq ⊢
            simp only [Option.some.injEq, List.length_append]
            generalize (if starts_with_five_fails xs = true then 1 else 0) = off at heq ⊢
            simp
            omega
        · simp
        · left; exact ⟨r, List.mem_append_right _ (by simp), hok⟩

/-- C2 counterexample: deliver exactly five failed polls from startup.
The classification sequence is `[online, online, online, online, offline]`
(the fifth poll reaches the threshold), which has one boundary between
its maximal runs, yet no notification fires — entering OFFLINE with no
prior successful poll only sets the baseline silently. -/
theorem transition_count_cx :
    (run_polls sample_env (List.replicate 5 fail_poll) init_state).transition_events.length ≠
      num_boundaries (offline_flags (List.replicate 5 fail_poll)) := by
  decide

/-- C2 amended: over any sequence of observations, the notification
fires exactly once per boundary between a maximal online run and a
maximal offline run (offline meaning the consecutive-failure count has
reached 5), *except* that when the sequence begins with five consecutive
failures the entry into OFFLINE sets the baseline silently and that one
boundary fires nothing; and no notification ever fires on the very first
observation. -/
theorem transition_fires_once_per_boundary (env : Env) (rs : List PollResult) :
    ((run_polls env rs init_state).transition_events.length +
        (if starts_with_five_fails rs = true then 1 else 0) =
      num_boundaries (offline_flags rs)) ∧
    ∀ r : PollResult, (run_polls env [r] init_state).transition_events = [] := by
  constructor
  · rcases run_polls_transition_invariant env rs with
      ⟨_, hE, hFall, hlen, _⟩ | ⟨b, _, _, heq, _, _⟩
    · rw [hE, swff_short rs hlen, num_boundaries_all_false _ hFall]
      simp
    · exact heq
  · intro r
    have hev := apply_poll_result_events env "" r init_state
    rw [show run_polls env [r] init_state = apply_poll_result env "" r init_state
      from rfl, hev]
    cases hok : r.ok <;> simp [hok, init_state]

/-! ## Asset downloader: streaming with progress
(`DownloadWorker._download_stream`, src/downloadWorker.py:50–82)

One loop iteration reads the cancellation flag, reads a chunk of at most
`64 * 1024` bytes, and — if the chunk was non-empty — samples
`time.time()`.  A `ReadStep` records those three observations; wall-clock
times are rationals. -/

/-- One iteration's inputs: the `self._cancel` value observed at the top
of the loop, the length of the chunk `resp.read(64 * 1024)` returned
(0 means end of stream), and the `time.time()` sample taken after the
chunk was written. -/
structure ReadStep where
  cancel : Bool
  len : Nat
  now : ℚ
deriving DecidableEq

/-- One `progress.emit(done, total, speed)` event; `t` is (ghost) the
wall-clock time at which it was emitted. -/
structure ProgressEvent where
  done : Nat
  total : Nat
  speed : ℚ
  t : ℚ
deriving DecidableEq

/-- How the streaming loop ended: a 0-byte read (stream end), an observed
cancellation, or the input trace ran out mid-stream. -/
inductive StreamResult
  | completed
  | cancelled
  | exhausted
deriving DecidableEq

/-- The fixed size passed to every `resp.read` call (`64 * 1024`). -/
def chunk_request_size : Nat := 64 * 1024

/-- The loop of `_download_stream`: `done`/`last_bytes`/`last_t` are the
source's local variables; an event is emitted when at least 0.25 s passed
since the last emission, with speed `(done - last_bytes) / max(1e-6, dt)`;
a 0-byte read emits the final `(done, total, 0.0)` event. -/
def download_stream_aux (total : Nat) :
    List ReadStep → Nat → Nat → ℚ → List ProgressEvent × StreamResult
  | [], _, _, _ => ([], .exhausted)
  | s :: rest, done, last_bytes, last_t =>
    if s.cancel then ([], .cancelled)
    else if s.len = 0 then ([⟨done, total, 0, last_t⟩], .completed)
    else
      if 1/4 ≤ s.now - last_t then
        (⟨done + s.len, total,
            ((done + s.len : ℚ) - (last_bytes : ℚ)) / max (1/1000000) (s.now - last_t),
            s.now⟩ ::
            (download_stream_aux total rest (done + s.len) (done + s.len) s.now).1,
          (download_stream_aux total rest (done + s.len) (done + s.len) s.now).2)
      else
        download_stream_aux total rest (done + s.len) last_bytes last_t

/-- Model of `DownloadWorker._download_stream` on a trace of reads:
`total = int(resp.headers.get("Content-Length") or 0)`, and `t0` is the
`time.time()` sample taken at function entry. -/
def download_stream (content_length : Option Nat) (t0 : ℚ)
    (steps : List ReadStep) : List ProgressEvent × StreamResult :=
  download_stream_aux (content_length.getD 0) steps 0 0 t0

/-- Claim vocabulary: consecutive progress emissions are at least 0.25 s
apart, the later speed is the bytes transferred since the earlier event
divided by the elapsed time clamped below by `1e-6`, and the byte count
strictly grows. -/
def progress_step_ok (prev cur : ProgressEvent) : Prop :=
  prev.t + 1/4 ≤ cur.t ∧
  cur.speed = ((cur.done : ℚ) - (prev.done : ℚ)) / max (1/1000000) (cur.t - prev.t) ∧
  prev.done < cur.done

/-- The bytes delivered before the stream's end-of-stream read. -/
def consumed_bytes (steps : List ReadStep) : Nat :=
  ((steps.takeWhile (fun s => !s.cancel && !(s.len == 0))).map ReadStep.len).sum

theorem chain_le_weaken {a b : ℚ} (h : a ≤ b) (l : List ℚ)
    (hc : List.Chain (fun x y : ℚ => x ≤ y) b l) :
    List.Chain (fun x y : ℚ => x ≤ y) a l := by
  cases l with
  | nil => exact List.Chain.nil
  | cons c t =>
    rcases List.chain_cons.mp hc with ⟨h1, h2⟩
    exact List.chain_cons.mpr ⟨h.trans h1, h2⟩

theorem download_stream_aux_spec (total : Nat) :
    ∀ (steps : List ReadStep) (done last_bytes : Nat) (last_t : ℚ),
      last_bytes ≤ done →
      List.Chain (fun a b : ℚ => a ≤ b) last_t (steps.map ReadStep.now) →
      (∀ e ∈ (download_stream_aux total steps done last_bytes last_t).1, e.total = total) ∧
      ((download_stream_aux total steps done last_bytes last_t).2 = .completed →
        ∃ ints fin,
          (download_stream_aux total steps done last_bytes last_t).1 = ints ++ [fin] ∧
          fin.speed = 0 ∧ fin.total = total ∧
          fin.done = done + consumed_bytes steps ∧
          (∀ sp : ℚ, List.Chain progress_step_ok ⟨last_bytes, total, sp, last_t⟩ ints) ∧
          (∀ e ∈ ints, 0 < e.speed)) := by
  intro steps
  induction steps with
  | nil =>
    intro done lb lt _ _
    refine ⟨?_, ?_⟩
    · intro e he; simp [download_stream_aux] at he
    · intro hc; simp [download_stream_aux] at hc
  | cons s rest ih =>
    intro done lb lt hle hchain
    rw [List.map_cons] at hchain
    obtain ⟨hlt, hchain'⟩ := List.chain_cons.mp hchain
    by_cases hc : s.cancel
    · refine ⟨?_, ?_⟩
      · intro e he; simp [download_stream_aux, hc] at he
      · intro hcomp; simp [download_stream_aux, hc] at hcomp
    · by_cases h0 : s.len = 0
      · refine ⟨?_, ?_⟩
        · intro e he
          simp [download_stream_aux, hc, h0] at he
          simp [he]
        · intro _
          refine ⟨[], ⟨done, total, 0, lt⟩, ?_, rfl, rfl, ?_, ?_, ?_⟩
          · simp [download_stream_aux, hc, h0]
          · simp [consumed_bytes, List.takeWhile, hc, h0]
          · intro sp; exact List.Chain.nil
          · intro e he; simp at he
      · have hbe : (s.len == 0) = false := by simp [h0]
        have hcons : consumed_bytes (s :: rest) = s.len + consumed_bytes rest := by
          simp [consumed_bytes, List.takeWhile, hc, hbe]
        by_cases hq : 1/4 ≤ s.now - lt
        · have hunf : download_stream_aux total (s :: rest) done lb lt =
              (⟨done + s.len, total,
                  ((done + s.len : ℚ) - (lb : ℚ)) / max (1/1000000) (s.now - lt), s.now⟩ ::
                  (download_stream_aux total rest (done + s.len) (done + s.len) s.now).1,
                (download_stream_aux total rest (done + s.len) (done + s.len) s.now).2) := by
            show (if s.cancel = true then (([] : List ProgressEvent), StreamResult.cancelled)
              else if s.len = 0 then ([⟨done, total, 0, lt⟩], StreamResult.completed)
              else if 1/4 ≤ s.now - lt then _ else _) = _
            rw [if_neg hc, if_neg h0, if_pos hq]
          have hih := ih (done + s.len) (done + s.len) s.now (le_refl _) hchain'
          refine ⟨?_, ?_⟩
          · intro e he
            rw [hunf] at he
            rcases List.mem_cons.mp he with he | he
            · simp [he]
            · exact hih.1 e he
          · intro hcomp
            rw [hunf] at hcomp
            obtain ⟨ints, fin, hevs, hsp, htot, hdone, hchn, hpos⟩ := hih.2 hcomp
            have hnum : (0 : ℚ) < (done + s.len : ℚ) - (lb : ℚ) := by
              have h1 : lb < done + s.len := by
                have : 0 < s.len := Nat.pos_of_ne_zero h0
                omega
              have := (Nat.cast_lt (α := ℚ)).mpr h1
              push_cast at this ⊢
              linarith
            have hden : (0 : ℚ) < max (1/1000000) (s.now - lt) := by
              have : (0 : ℚ) < 1/1000000 := by norm_num
              exact lt_of_lt_of_le this (le_max_left _ _)
            refine ⟨⟨done + s.len, total,
                ((done + s.len : ℚ) - (lb : ℚ)) / max (1/1000000) (s.now - lt), s.now⟩ :: ints,
              fin, ?_, hsp, htot, ?_, ?_, ?_⟩
            · rw [hunf]
              simp [hevs]
            · rw [hdone, hcons]
              omega
            · intro sp
              refine List.chain_cons.mpr ⟨⟨?_, ?_, ?_⟩, ?_⟩
              · show lt + 1/4 ≤ s.now
                linarith
              · show ((done + s.len : ℚ) - (lb : ℚ)) / max (1/1000000) (s.now - lt) =
                  (((done + s.len : Nat) : ℚ) - (lb : ℚ)) / max (1/1000000) (s.now - lt)
                push_cast
                ring_nf
              · show lb < done + s.len
                have : 0 < s.len := Nat.pos_of_ne_zero h0
                omega
              · exact hchn _
            · intro e he
              rcases List.mem_cons.mp he with he | he
              · rw [he]
                exact div_pos hnum hden
              · exact hpos e he
        · have hunf : download_stream_aux total (s :: rest) done lb lt =
              download_stream_aux total rest (done + s.len) lb lt := by
            show (if s.cancel = true then (([] : List ProgressEvent), StreamResult.cancelled)
              else if s.len = 0 then ([⟨done, total, 0, lt⟩], StreamResult.completed)
              else if 1/4 ≤ s.now - lt then _ else _) = _
            rw [if_neg hc, if_neg h0, if_neg hq]
          have hih := ih (done + s.len) lb lt (by omega)
            (chain_le_weaken hlt (rest.map ReadStep.now) hchain')
          rw [hunf]
          refine ⟨hih.1, ?_⟩
          intro hcomp
          obtain ⟨ints, fin, hevs, hsp, htot, hdone, hchn, hpos⟩ := hih.2 hcomp
          refine ⟨ints, fin, hevs, hsp, htot, ?_, hchn, hpos⟩
          rw [hdone, hcons]
          omega

/-- C7: while streaming, data is requested in fixed 64 KiB chunks;
given monotone wall-clock samples, every emitted event carries the
advertised total (0 when the server sent none); and when the stream ends
normally the events are some intermediate events followed by exactly one
final event of speed 0 carrying the full cumulative byte count, where
consecutive intermediate events (seeded at the stream start) are ≥ 0.25 s
apart and each carries speed = bytes-since-previous-emission divided by
the elapsed time clamped below by 1e-6 — in particular every intermediate
speed is positive, so the speed-0 final event is unique. -/
theorem download_stream_progress (content_length : Option Nat) (t0 : ℚ)
    (steps : List ReadStep)
    (hmono : List.Chain (fun a b : ℚ => a ≤ b) t0 (steps.map ReadStep.now)) :
    chunk_request_size = 65536 ∧
    (∀ e ∈ (download_stream content_length t0 steps).1,
      e.total = content_length.getD 0) ∧
    ((download_stream content_length t0 steps).2 = StreamResult.completed →
      ∃ ints fin,
        (download_stream content_length t0 steps).1 = ints ++ [fin] ∧
        fin.speed = 0 ∧
        fin.done = consumed_bytes steps ∧
        List.Chain progress_step_ok ⟨0, content_length.getD 0, 0, t0⟩ ints ∧
        ∀ e ∈ ints, 0 < e.speed) := by
  have h := download_stream_aux_spec (content_length.getD 0) steps 0 0 t0
    (le_refl 0) hmono
  refine ⟨rfl, h.1, ?_⟩
  intro hcomp
  obtain ⟨ints, fin, hevs, hsp, _, hdone, hchn, hpos⟩ := h.2 hcomp
  exact ⟨ints, fin, hevs, hsp, by simpa using hdone, hchn 0, hpos⟩

/-- A concrete read trace: the very first read hits end of stream. -/
def wit_steps : List ReadStep := [⟨false, 0, 0⟩]

/-- Witness for C7: the monotonicity hypothesis holds on a concrete
trace, the stream completes on it, and the applied theorem yields the
chunk-size fact. -/
theorem download_stream_progress_witness :
    List.Chain (fun a b : ℚ => a ≤ b) 0 (wit_steps.map ReadStep.now) ∧
    (download_stream (some 3) 0 wit_steps).2 = StreamResult.completed ∧
    chunk_request_size = 65536 :=
  ⟨List.Chain.cons (le_refl (0 : ℚ)) List.Chain.nil, rfl,
    (download_stream_progress (some 3) 0 wit_steps
      (List.Chain.cons (le_refl (0 : ℚ)) List.Chain.nil)).1⟩

/-! ## Asset downloader: fetch cascade and terminal events
(`DownloadWorker.run`, src/downloadWorker.py:84–123)

`_download_stream` returns an `(ok, message)` pair, with message
`"Cancelled"` exactly when cancellation was observed in the loop (see
`download_stream_aux`).  A run's environment records those two pairs, the
`self._cancel` value read after the compressed fetch, and the outcome of
`bz2.decompress` on the fetched buffer. -/

/-- The inputs of one `DownloadWorker.run`: the two stream results (the
second only consulted if the fallback is reached), the cancellation flag
sampled between fetch and decompression, and the decompression outcome
(`.error e` is the caught exception with text `e`). -/
structure DlEnv where
  map_name : String
  out_dir : String
  fetch_bsp : Bool × String
  fetch_bz2 : Bool × String
  cancel_after_bz2 : Bool
  decompress : Except String Unit

/-- What one run emitted and left behind: every `finished` signal
(`ok, message, bsp_path`), whether the compressed fallback was attempted,
and whether the fully-downloaded compressed file is on disk. -/
structure DlTrace where
  finished : List (Bool × String × String)
  tried_bz2 : Bool
  bz2_on_disk : Bool
deriving DecidableEq

/-- Model of `DownloadWorker.run`: try `<map>.bsp`, fall back to `<map>.bsp.bz2`
unless cancelled, then decompress; exactly the source's branch order.
(`os.path.join` is modelled with `/`; a fully streamed compressed fetch
leaves `<map>.bsp.bz2` on disk, and no branch deletes it.) -/
def download_run (e : DlEnv) : DlTrace :=
  let bsp_path := e.out_dir ++ "/" ++ e.map_name ++ ".bsp"
  if e.fetch_bsp.1 then
    ⟨[(true, "Downloaded " ++ e.map_name ++ ".bsp", bsp_path)], false, false⟩
  else if e.fetch_bsp.2 = "Cancelled" then
    ⟨[(false, "Cancelled", "")], false, false⟩
  else if e.fetch_bz2.1 = false then
    if e.fetch_bz2.2 = "Cancelled" then ⟨[(false, "Cancelled", "")], true, false⟩
    else ⟨[(false, "Not found on FastDL (.bsp or .bsp.bz2)", "")], true, false⟩
  else if e.cancel_after_bz2 then
    ⟨[(false, "Cancelled", "")], true, true⟩
  else
    match e.decompress with
    | .ok _ =>
      ⟨[(true, "Downloaded & decompressed " ++ e.map_name ++ ".bsp", bsp_path)], true, true⟩
    | .error err =>
      ⟨[(false, "Downloaded .bz2 but failed to decompress: " ++ err, "")], true, true⟩

/-- C4: every downloader run emits exactly one terminal event — success
with the final `.bsp` path when the uncompressed fetch succeeds or when
the compressed fetch succeeds and decompression succeeds; `"Cancelled"`
whenever cancellation is observed, with no fallback attempted after a
cancelled first fetch; one "not found on either variant" failure when
both fetches fail without cancellation; and a distinct
decompression-failure terminal that leaves the compressed file on
disk. -/
theorem download_run_terminal (mapn outdir m1 m2 : String) (ok1 ok2 c : Bool)
    (dec : Except String Unit) :
    (download_run ⟨mapn, outdir, (ok1, m1), (ok2, m2), c, dec⟩).finished.length = 1 ∧
    (ok1 = true →
      download_run ⟨mapn, outdir, (ok1, m1), (ok2, m2), c, dec⟩ =
        ⟨[(true, "Downloaded " ++ mapn ++ ".bsp", outdir ++ "/" ++ mapn ++ ".bsp")],
          false, false⟩) ∧
    (ok1 = false → m1 = "Cancelled" →
      download_run ⟨mapn, outdir, (ok1, m1), (ok2, m2), c, dec⟩ =
        ⟨[(false, "Cancelled", "")], false, false⟩) ∧
    (ok1 = false → m1 ≠ "Cancelled" → ok2 = false → m2 = "Cancelled" →
      (download_run ⟨mapn, outdir, (ok1, m1), (ok2, m2), c, dec⟩).finished =
        [(false, "Cancelled", "")]) ∧
    (ok1 = false → m1 ≠ "Cancelled" → ok2 = false → m2 ≠ "Cancelled" →
      (download_run ⟨mapn, outdir, (ok1, m1), (ok2, m2), c, dec⟩).finished =
        [(false, "Not found on FastDL (.bsp or .bsp.bz2)", "")]) ∧
    (ok1 = false → m1 ≠ "Cancelled" → ok2 = true → c = true →
      (download_run ⟨mapn, outdir, (ok1, m1), (ok2, m2), c, dec⟩).finished =
        [(false, "Cancelled", "")]) ∧
    (ok1 = false → m1 ≠ "Cancelled" → ok2 = true → c = false → dec = .ok () →
      (download_run ⟨mapn, outdir, (ok1, m1), (ok2, m2), c, dec⟩).finished =
        [(true, "Downloaded & decompressed " ++ mapn ++ ".bsp",
          outdir ++ "/" ++ mapn ++ ".bsp")]) ∧
    (∀ err : String, ok1 = false → m1 ≠ "Cancelled" → ok2 = true → c = false →
      dec = .error err →
      (download_run ⟨mapn, outdir, (ok1, m1), (ok2, m2), c, dec⟩).finished =
          [(false, "Downloaded .bz2 but failed to decompress: " ++ err, "")] ∧
        (download_run ⟨mapn, outdir, (ok1, m1), (ok2, m2), c, dec⟩).bz2_on_disk = true) := by
  refine ⟨?_, ?_, ?_, ?_, ?_, ?_, ?_, ?_⟩
  · unfold download_run
    rcases ok1 with _ | _ <;> rcases ok2 with _ | _ <;> rcases c with _ | _ <;>
      rcases dec with err | u <;>
      by_cases hm1 : m1 = "Cancelled" <;> by_cases hm2 : m2 = "Cancelled" <;>
      simp [hm1, hm2]
  · intro h1; subst h1; rfl
  · intro h1 hm1; subst h1; subst hm1; rfl
  · intro h1 hm1 h2 hm2; subst h1; subst h2; subst hm2
    simp [download_run, hm1]
  · intro h1 hm1 h2 hm2; subst h1; subst h2
    simp [download_run, hm1, hm2]
  · intro h1 hm1 h2 hc; subst h1; subst h2; subst hc
    simp [download_run, hm1]
  · intro h1 hm1 h2 hc hdec; subst h1; subst h2; subst hc; subst hdec
    simp [download_run, hm1]
  · intro err h1 hm1 h2 hc hdec; subst h1; subst h2; subst hc; subst hdec
    simp [download_run, hm1]

/-- Witness for C4: a concrete run in which the uncompressed fetch
404s, the compressed fetch succeeds and decompression fails — one
decompression-failure terminal is emitted and the compressed file stays
on disk. -/
theorem download_run_terminal_witness :
    (download_run ⟨"cp_dustbowl", "downloads", (false, "HTTP 404"), (true, "OK"),
        false, .error "bad magic"⟩).finished =
      [(false, "Downloaded .bz2 but failed to decompress: bad magic", "")] ∧
    (download_run ⟨"cp_dustbowl", "downloads", (false, "HTTP 404"), (true, "OK"),
        false, .error "bad magic"⟩).bz2_on_disk = true :=
  (download_run_terminal "cp_dustbowl" "downloads" "HTTP 404" "OK" false true false
      (.error "bad magic")).2.2.2.2.2.2.2 "bad magic" rfl (by decide) rfl rfl rfl

end Reployer
